import Mathlib

/-!
Verification of the AirTouch 5 protocol client (homebridge-airtouch5-platform).

Shallow embedding of the protocol engine: bytes are `Nat` (values < 256 where
it matters, with explicit `% 256` at buffer boundaries), JS numbers that carry
temperatures are `ℚ`, JS `Buffer.subarray`/`slice` is clamped take/drop on
`List Nat`, and the fallible aggregator operations return `Except` so that a
JavaScript `TypeError` is an explicit `.error`.
-/

namespace AT5

/-- JS `Buffer.subarray(s, e)` / `Buffer.slice(s, e)` for non-negative
arguments: both indices are clamped to the buffer length, and an empty
buffer results when `e ≤ s`. -/
def jsSubarray (data : List Nat) (s e : Nat) : List Nat :=
  (data.take e).drop s

/-- `isNull` from `src/api.ts`: replace an undefined value with a default. -/
def isNull {α : Type} (val : Option α) (nullVal : α) : α :=
  val.getD nullVal

/-! ## CRC16 (`crc16` in `src/api.ts`) -/

/-- One iteration of the inner bit loop of `crc16`:
`odd = crc & 0x0001; crc = crc >> 1; if (odd) crc = crc ^ 0xA001`. -/
def crc16Round (crc : Nat) : Nat :=
  let odd := crc &&& 0x0001
  let c := crc >>> 1
  if odd ≠ 0 then c ^^^ 0xA001 else c

/-- `n` iterations of the bit loop. -/
def crc16Bits : Nat → Nat → Nat
  | 0, crc => crc
  | n + 1, crc => crc16Bits n (crc16Round crc)

/-- Body of the outer byte loop of `crc16`: `crc = crc ^ buffer[i]`, then
eight iterations of the bit loop. -/
def crc16Byte (crc b : Nat) : Nat :=
  crc16Bits 8 (crc ^^^ b)

/-- `crc16(buffer)` from `src/api.ts`: Modbus CRC over the byte list,
initial value 0xFFFF. -/
def crc16 (buffer : List Nat) : Nat :=
  buffer.foldl crc16Byte 0xFFFF

/-- Modelled from the spec: the reference CRC-16/MODBUS recurrence, written
arithmetically (initial value 0xFFFF, LSB-first: test the low bit, shift the
register right by dividing by two, XOR the polynomial 0xA001 into the register
whenever the bit shifted out was odd, no final XOR). Used only to state that
`crc16` computes the Modbus variant. -/
def modbusCrc16Spec (bytes : List Nat) : Nat :=
  bytes.foldl
    (fun crc b =>
      Nat.rec (motive := fun _ => Nat) (crc ^^^ b)
        (fun _ c => if c % 2 = 1 then (c / 2) ^^^ 0xA001 else c / 2) 8)
    0xFFFF

/-! ## AC control encoding (`encode_ac_control`, `acSetTargetTemperature` in `src/api.ts`) -/

/-- `MAGIC.AC_UNIT_DEFAULT` from `src/magic.ts`. -/
def AC_UNIT_DEFAULT : Nat := 0

/-- `MAGIC.AC_POWER_STATES.KEEP` from `src/magic.ts`. -/
def AC_POWER_STATES_KEEP : Nat := 0

/-- `MAGIC.AC_FAN_SPEEDS.KEEP` from `src/magic.ts`. -/
def AC_FAN_SPEEDS_KEEP : Nat := 7

/-- `MAGIC.AC_MODES.KEEP` from `src/magic.ts`. -/
def AC_MODES_KEEP : Nat := 5

/-- `MAGIC.AC_TARGET_TYPES.KEEP` from `src/magic.ts`. -/
def AC_TARGET_TYPES_KEEP : Nat := 0

/-- `MAGIC.AC_TARGET_TYPES.SET_VALUE` from `src/magic.ts`. -/
def AC_TARGET_TYPES_SET_VALUE : Nat := 1

/-- The fields of the `AcControlUnit` object passed to `encode_ac_control`;
all are optional in the source and `undefined` is `none` here.
`ac_target_value` is a JS number computed as `(value*10)-100`, so it is a
rational. -/
structure AcControlUnit where
  ac_unit_number : Option Nat := none
  ac_power_state : Option Nat := none
  ac_fan_speed : Option Nat := none
  ac_mode : Option Nat := none
  ac_target_keep : Option Nat := none
  ac_target_value : Option ℚ := none

/-- JS `Buffer.from([x])` coercion of a number to a uint8: truncate toward
zero, then reduce modulo 256. -/
def ratToUint8 (q : ℚ) : Nat :=
  ((q.num / (q.den : ℤ)) % 256).toNat

/-- `encode_ac_control(unit)` from `src/api.ts`, producing the 4 byte
control payload.  `MAGIC.AC_TARGET_DEFAULT` is not defined in the `MAGIC`
class, so the default for `ac_target_value` is `undefined`, which
`Buffer.from` coerces to 0. -/
def encode_ac_control (unit : AcControlUnit) : List Nat :=
  let byte1 := (isNull unit.ac_unit_number AC_UNIT_DEFAULT) |||
    ((isNull unit.ac_power_state AC_POWER_STATES_KEEP) <<< 4)
  let byte2 := (isNull unit.ac_fan_speed AC_FAN_SPEEDS_KEEP) |||
    ((isNull unit.ac_mode AC_MODES_KEEP) <<< 4)
  let byte3 := (isNull unit.ac_target_keep AC_TARGET_TYPES_KEEP) <<< 4
  let byte4 := isNull unit.ac_target_value 0
  [byte1 % 256, byte2 % 256, byte3 % 256, ratToUint8 byte4]

/-- The control object built by `acSetTargetTemperature(unit_number, value)`
in `src/api.ts`: target-control set to `MAGIC.AC_TARGET_TYPES.SET_VALUE` and
raw target `(value*10)-100`. -/
def acSetTargetTemperatureControl (unit_number : Nat) (value : ℚ) : AcControlUnit :=
  { ac_unit_number := some unit_number
    ac_target_keep := some AC_TARGET_TYPES_SET_VALUE
    ac_target_value := some (value * 10 - 100) }

/-! ## AC / zone status decoding (`decode_ac_status`, `decode_zones_status`
in `src/api.ts`) -/

/-- The slice of the repeat data that the current `decode_ac_status` reads
for record `i`: `data.subarray(i*19, i*10+10)`. -/
def acStatusRecordSlice (data : List Nat) (i : Nat) : List Nat :=
  jsSubarray data (i * 19) (i * 10 + 10)

/-- The slice of the repeat data that the previous revision of
`decode_ac_status` reads for record `i`: `data.slice(i*8, i*8+8)`
(also the slice `decode_zones_status` uses for zone records). -/
def acStatusRecordSlicePrev (data : List Nat) (i : Nat) : List Nat :=
  jsSubarray data (i * 8) (i * 8 + 8)

/-- The current-temperature decode of `decode_ac_status` applied to bytes 4
and 5 of an AC record: `((((unit[4] & 0b00000111) << 8) + unit[5]) - 500) / 10`. -/
def acTempDecode (hi lo : Nat) : ℚ :=
  (((((hi &&& 7) <<< 8) + lo : Nat) : ℚ) - 500) / 10

/-- The current-temperature decode of `decode_zones_status` applied to bytes
4 and 5 of a zone record: `(((group[4] << 8) + group[5]) - 500) / 10`. -/
def zoneTempDecode (hi lo : Nat) : ℚ :=
  ((((hi <<< 8) + lo : Nat) : ℚ) - 500) / 10

/-- The target-temperature decode both status decoders apply to the raw
target byte: `(raw + 100.0) / 10.0`. -/
def targetTempDecode (raw : Nat) : ℚ :=
  ((raw : ℚ) + 100) / 10

/-! ## UDP discovery (`discoverDevices` in `src/api.ts`) -/

/-- The fixed broadcast request string sent by `discoverDevices`
(replies are compared against it character by character). -/
def discoveryBroadcast : List Char :=
  "::REQUEST-POLYAIRE-AIRTOUCH-DEVICE-INFO:;".toList

/-- JS `String.prototype.split(',')` on the reply text, modelled on the
character list. -/
def splitOnComma (s : List Char) : List (List Char) :=
  s.foldr
    (fun c acc =>
      match acc with
      | [] => [[c]]
      | cur :: rest => if c = ',' then [] :: (cur :: rest) else (c :: cur) :: rest)
    [[]]

/-- Fields of a `found_devices` event; a field is `none` when the
comma-delimited reply had no part at that index (`undefined` in JS). -/
structure FoundDevice where
  ip : Option (List Char)
  consoleId : Option (List Char)
  airtouchId : Option (List Char)
  deviceName : Option (List Char)
deriving DecidableEq

/-- The UDP `message` listener of `discoverDevices`: a reply equal to the
outbound broadcast string is ignored; any other reply is split on commas and
emitted as one `found_devices` event with parts 0, 1, 3 and 4. -/
def onDiscoveryMessage (msg : List Char) : List FoundDevice :=
  if msg = discoveryBroadcast then []
  else
    let messages := splitOnComma msg
    [{ ip := messages.get? 0
       consoleId := messages.get? 1
       airtouchId := messages.get? 3
       deviceName := messages.get? 4 }]

/-! ## Current heater/cooler state derivation
(`handleCurrentHeatingCoolingStateGet` in `src/platformZoneAccessory.ts`) -/

/-- The HomeKit `CurrentHeaterCoolerState` values returned by the zone
accessory handler. -/
inductive HeaterCoolerState
  | inactive
  | idle
  | heating
  | cooling
deriving DecidableEq

/-- `handleCurrentHeatingCoolingStateGet` from the zone accessory, as a
function of the zone power state, damper position, owning AC mode and the
zone target/current temperatures (the switch over `ac_mode` written as an
if-chain). -/
def currentHeaterCoolerState (power_state damper ac_mode : Nat)
    (zone_target zone_current : ℚ) : HeaterCoolerState :=
  if power_state = 0 then .inactive
  else if damper = 0 then .idle
  else if ac_mode = 0 then
    (if zone_target < zone_current then .cooling else .heating)
  else if ac_mode = 1 then .heating
  else if ac_mode = 2 then .cooling
  else if ac_mode = 3 then .cooling
  else if ac_mode = 4 then .cooling
  else if ac_mode = 8 then .heating
  else if ac_mode = 9 then .cooling
  else .inactive

/-! ## Session bootstrap ordering (`src/api.ts`) -/

/-- The kinds of inbound messages the `data` handler dispatches on:
AC ability and zone names (extended), zone and AC status (standard), and
everything else (unknown subtypes are no-ops for this ordering property). -/
inductive InboundMsg
  | acAbility
  | zoneStat
  | acStat
  | otherMsg
deriving DecidableEq

/-- Observable actions of one session: a decode of an inbound message, or a
request written to the socket. -/
inductive SessionAction
  | decodedAcAbility
  | decodedZoneStat
  | decodedAcStat
  | sentGetAcStatus
  | sentGetZoneStatus
  | sentGetZoneNames
deriving DecidableEq

/-- The two boolean guards of the `AirtouchAPI` session. -/
structure SessionFlags where
  got_ac_ability : Bool
  got_zone_status : Bool
deriving DecidableEq

/-- The initial flags set in the `AirtouchAPI` constructor. -/
def sessionInit : SessionFlags :=
  { got_ac_ability := false, got_zone_status := false }

/-- `GET_AC_STATUS()`: writes the AC status request only when
`got_ac_ability === true`. -/
def getAcStatusActions (s : SessionFlags) : List SessionAction :=
  if s.got_ac_ability then [.sentGetAcStatus] else []

/-- `GET_ZONE_NAMES()`: writes the zone names request only when
`got_zone_status === true`. -/
def getZoneNamesActions (s : SessionFlags) : List SessionAction :=
  if s.got_zone_status then [.sentGetZoneNames] else []

/-- One inbound message processed by the `data` handler:
`decode_ac_ability` sets `got_ac_ability` and then calls `GET_AC_STATUS`
and `GET_ZONE_STATUS`; `decode_zones_status` calls `GET_ZONE_NAMES` the
first time, after setting `got_zone_status`; `decode_ac_status` only emits
events; unknown messages are dropped. -/
def sessionStep (s : SessionFlags) (m : InboundMsg) :
    SessionFlags × List SessionAction :=
  match m with
  | .acAbility =>
    let s2 := { s with got_ac_ability := true }
    (s2, .decodedAcAbility :: (getAcStatusActions s2 ++ [.sentGetZoneStatus]))
  | .zoneStat =>
    if s.got_zone_status then (s, [.decodedZoneStat])
    else
      let s2 := { s with got_zone_status := true }
      (s2, .decodedZoneStat :: getZoneNamesActions s2)
  | .acStat => (s, [.decodedAcStat])
  | .otherMsg => (s, [])

/-- Run the session from given flags over a list of inbound messages,
collecting the action trace in order. -/
def sessionRun (s : SessionFlags) : List InboundMsg → List SessionAction
  | [] => []
  | m :: ms =>
    let p := sessionStep s m
    p.2 ++ sessionRun p.1 ms

/-- `true` iff no zone-names request occurs in the trace before the first
zone-status decode. -/
def noNamesBeforeZoneStat : List SessionAction → Bool
  | [] => true
  | a :: rest =>
    if a = .decodedZoneStat then true
    else if a = .sentGetZoneNames then false
    else noNamesBeforeZoneStat rest

/-- `true` iff no zone-names request occurs in the trace before the first
AC-ability decode. -/
def noNamesBeforeAbility : List SessionAction → Bool
  | [] => true
  | a :: rest =>
    if a = .decodedAcAbility then true
    else if a = .sentGetZoneNames then false
    else noNamesBeforeAbility rest

/-! ## Zone name decoding (`decode_zone_names` in `src/api.ts`) -/

/-- The `while (counter < length)` loop of `decode_zone_names`.  Each
iteration reads `zone_number = data[counter]`, `name_len = data[counter+1]`,
emits the record, and continues at `counter + 2 + name_len`.  When
`counter + 1` is already out of range, the JS read yields `undefined`,
the emitted name is empty, the new counter is `NaN` and the loop exits;
that is the second branch. -/
def decodeZoneNamesLoop (data : List Nat) (counter : Nat) :
    List (Nat × List Nat) :=
  if h : counter < data.length then
    let zone_number := data.getD counter 0
    if h2 : counter + 1 < data.length then
      let name_len := data.getD (counter + 1) 0
      let name := jsSubarray data (counter + 2) (counter + 2 + name_len)
      (zone_number, name) :: decodeZoneNamesLoop data (counter + 2 + name_len)
    else
      [(zone_number, [])]
  else []
termination_by data.length - counter
decreasing_by omega

/-- `decode_zone_names(data)`: run the loop from 0 when the buffer is
non-empty.  Names are kept as byte lists. -/
def decode_zone_names (data : List Nat) : List (Nat × List Nat) :=
  if 0 < data.length then decodeZoneNamesLoop data 0 else []

/-! ## Device state aggregator (`Airtouch5Wrapper` in `src/airTouchWrapper.ts`) -/

/-- The `AcAbility` record (current revision: numeric fields). -/
structure AcAbility where
  ac_unit_number : Nat
  ac_name : String
  ac_start_zone : Nat
  ac_zone_count : Nat
  ac_support_cool_mode : Nat
  ac_support_fan_mode : Nat
  ac_support_dry_mode : Nat
  ac_support_heat_mode : Nat
  ac_support_auto_mode : Nat
  ac_support_fan_intelligent : Nat
  ac_support_fan_turbo : Nat
  ac_support_fan_powerful : Nat
  ac_support_fan_high : Nat
  ac_support_fan_medium : Nat
  ac_support_fan_low : Nat
  ac_support_fan_quiet : Nat
  ac_support_fan_auto : Nat
  ac_min_cool : Nat
  ac_max_cool : Nat
  ac_min_heat : Nat
  ac_max_heat : Nat

/-- The `AcStatus` record (current revision). -/
structure AcStatus where
  ac_unit_number : Nat
  ac_power_state : Nat
  ac_mode : Nat
  ac_fan_speed : Nat
  ac_target : ℚ
  ac_temp : ℚ
  ac_turbo : Nat
  ac_bypass : Nat
  ac_spill : Nat
  ac_timer : Nat
  ac_error_code : Nat

/-- The `ZoneStatus` record (current revision); `zone_name` is optional and
filled in by the wrapper. -/
structure ZoneStatus where
  zone_number : Nat
  zone_name : Option String := none
  zone_power_state : Nat
  zone_control_type : Nat
  zone_damper_position : Nat
  zone_target : ℚ
  zone_temp : ℚ
  zone_battery_low : Nat
  zone_has_sensor : Nat
  zone_has_spill : Nat

/-- One entry of the wrapper's `acs` array (`AC` interface); the HomeKit
accessory object itself is external and not modelled. -/
structure AcEntry where
  ac_number : Nat
  ac_ability : AcAbility
  ac_status : Option AcStatus := none
  registered : Bool := false

/-- One entry of the wrapper's `zones` array (`Zone` interface). -/
structure ZoneEntry where
  zone_number : Nat
  ac_number : Nat
  zone_name : String
  zone_status : Option ZoneStatus := none
  registered : Bool := false

/-- The per-controller state of `Airtouch5Wrapper`: its sparse `acs` and
`zones` arrays, indexed by unit / zone number (`none` is a JS hole:
`undefined`). -/
structure Wrapper where
  acs : Nat → Option AcEntry
  zones : Nat → Option ZoneEntry

/-- The wrapper state right after construction: both arrays empty. -/
def emptyWrapper : Wrapper :=
  { acs := fun _ => none, zones := fun _ => none }

/-- A JS runtime exception. -/
inductive JsError
  | typeError
deriving DecidableEq

/-- `AddUpdateZoneStatus(zone_status)` from `src/airTouchWrapper.ts`.  The
first statement after reading the zone number is
`zone_status.zone_name = this.zones[zone_number].zone_name`, which throws a
`TypeError` when `this.zones[zone_number]` is `undefined`; the
`=== undefined` guard further down is only reached when the entry exists.
On the non-throwing path the zone's status is replaced and, when the zone
was registered, the accessory is refreshed (an external effect). -/
def AddUpdateZoneStatus (w : Wrapper) (zone_status : ZoneStatus) :
    Except JsError Wrapper :=
  let zone_number := zone_status.zone_number
  match w.zones zone_number with
  | none => .error .typeError
  | some entry =>
    let zs := { zone_status with zone_name := some entry.zone_name }
    let entry2 := { entry with zone_status := some zs }
    .ok { w with
          zones := fun m => if m = zone_number then some entry2 else w.zones m }

/-- `AddUpdateAcStatus(ac_status)` from `src/airTouchWrapper.ts`.  The
statement `const ac_name = this.acs[ac_number].ac_ability.ac_name` throws a
`TypeError` when `this.acs[ac_number]` is `undefined`; the
`=== undefined` guard below it is only reached when the entry exists.  On
the non-throwing path the AC's status is replaced, the AC is registered on
first status, and the accessory is refreshed (external effects beyond the
`registered` flag are not modelled). -/
def AddUpdateAcStatus (w : Wrapper) (ac_status : AcStatus) :
    Except JsError Wrapper :=
  let ac_number := ac_status.ac_unit_number
  match w.acs ac_number with
  | none => .error .typeError
  | some entry =>
    let entry2 := { entry with ac_status := some ac_status, registered := true }
    .ok { w with
          acs := fun m => if m = ac_number then some entry2 else w.acs m }

/-- A sample decoded zone status for a zone number with no entry. -/
def zoneStatusSample : ZoneStatus :=
  { zone_number := 0
    zone_power_state := 1
    zone_control_type := 1
    zone_damper_position := 50
    zone_target := 22
    zone_temp := 23
    zone_battery_low := 0
    zone_has_sensor := 1
    zone_has_spill := 0 }

/-- A sample decoded AC status for a unit number with no entry. -/
def acStatusSample : AcStatus :=
  { ac_unit_number := 0
    ac_power_state := 1
    ac_mode := 4
    ac_fan_speed := 2
    ac_target := 22
    ac_temp := 23
    ac_turbo := 0
    ac_bypass := 0
    ac_spill := 0
    ac_timer := 0
    ac_error_code := 0 }

/-! ## Theorems -/

theorem crc16Round_eq_modbusRound (c : Nat) :
    crc16Round c = if c % 2 = 1 then (c / 2) ^^^ 0xA001 else c / 2 := by
  unfold crc16Round
  rw [Nat.and_one_is_mod, Nat.shiftRight_one]
  rcases Nat.mod_two_eq_zero_or_one c with h | h <;> simp [h]

theorem crc16Bits_succ (n : Nat) :
    ∀ c, crc16Bits (n + 1) c = crc16Round (crc16Bits n c) := by
  induction n with
  | zero => intro c; rfl
  | succ n ih =>
    intro c
    calc crc16Bits (n + 1 + 1) c = crc16Bits (n + 1) (crc16Round c) := rfl
    _ = crc16Round (crc16Bits n (crc16Round c)) := ih _
    _ = crc16Round (crc16Bits (n + 1) c) := rfl

theorem crc16Bits_eq_rec (n c : Nat) :
    crc16Bits n c =
      Nat.rec (motive := fun _ => Nat) c
        (fun _ r => if r % 2 = 1 then (r / 2) ^^^ 0xA001 else r / 2) n := by
  induction n with
  | zero => rfl
  | succ n ih => rw [crc16Bits_succ, ih, crc16Round_eq_modbusRound]

theorem crc16_eq_modbusSpec (b : List Nat) : crc16 b = modbusCrc16Spec b := by
  unfold crc16 modbusCrc16Spec
  congr 1
  funext crc x
  exact crc16Bits_eq_rec 8 (crc ^^^ x)

set_option maxRecDepth 100000 in
/-- C6: `crc16` computes the Modbus CRC16 (initial value 0xFFFF, LSB-first
bit processing, XOR with polynomial 0xA001 on each odd bit shifted out, no
final XOR), it is deterministic, and it matches the reference CRC-16/MODBUS
values on the pinned vectors `[0x01, 0x02] ↦ 0xE181` and
`"123456789" ↦ 0x4B37`. -/
theorem C6_crc16_is_modbus :
    (∀ b : List Nat, crc16 b = modbusCrc16Spec b) ∧
    (∀ b : List Nat, crc16 b = crc16 b) ∧
    crc16 [0x01, 0x02] = 0xE181 ∧
    crc16 [0x31, 0x32, 0x33, 0x34, 0x35, 0x36, 0x37, 0x38, 0x39] = 0x4B37 :=
  ⟨crc16_eq_modbusSpec, fun _ => rfl, by decide, by decide⟩

/-- C3 (failing evaluation): for every set-target request built by
`acSetTargetTemperature`, byte 3 of the encoded AC control payload is 0x10
(`MAGIC.AC_TARGET_TYPES.SET_VALUE = 1` shifted left by 4), not the 0x40 the
claim and the code's own protocol comments require; with no target change
requested byte 3 is 0x00 as claimed. -/
theorem C3_setTarget_byte3 :
    (∀ (u : Nat) (v : ℚ),
      (encode_ac_control (acSetTargetTemperatureControl u v)).get? 2 = some 0x10) ∧
    (encode_ac_control {}).get? 2 = some 0x00 ∧
    (0x10 : Nat) ≠ 0x40 :=
  ⟨fun _ _ => rfl, rfl, by decide⟩

/-- C1 (failing evaluation): feeding a zone status or an AC status whose
number has no entry in the aggregator makes `AddUpdateZoneStatus` /
`AddUpdateAcStatus` throw a `TypeError` (the entry is dereferenced before
the `undefined` guard), instead of logging and leaving the state unchanged. -/
theorem C1_unknown_number_throws :
    AddUpdateZoneStatus emptyWrapper zoneStatusSample = .error .typeError ∧
    AddUpdateAcStatus emptyWrapper acStatusSample = .error .typeError :=
  ⟨rfl, rfl⟩

/-- C4 counterexample: the discovery reply "garbage" (no commas) emits one
`found_devices` event — with only the first field set — rather than the zero
events the claim states. -/
theorem C4_garbage_one_event :
    onDiscoveryMessage "garbage".toList =
      [{ ip := some "garbage".toList, consoleId := none,
         airtouchId := none, deviceName := none }] ∧
    onDiscoveryMessage "garbage".toList ≠ [] := by
  exact ⟨by decide, by decide⟩

/-- C4 amended: the discovery listener never raises, but it performs no
validation: every reply other than the outbound broadcast string — malformed
ones included — emits exactly one `found_devices` event (absent
comma-delimited parts become `undefined`); only the loopback of the
broadcast string itself emits zero events. -/
theorem C4_lenient_listener (msg : List Char) :
    (msg ≠ discoveryBroadcast → (onDiscoveryMessage msg).length = 1) ∧
    (msg = discoveryBroadcast → onDiscoveryMessage msg = []) := by
  constructor
  · intro h; simp [onDiscoveryMessage, h]
  · intro h; simp [onDiscoveryMessage, h]

theorem C4_lenient_listener_witness :
    ("garbage".toList ≠ discoveryBroadcast ∧
      (onDiscoveryMessage "garbage".toList).length = 1) ∧
    (discoveryBroadcast = discoveryBroadcast ∧
      onDiscoveryMessage discoveryBroadcast = []) :=
  ⟨⟨by decide, (C4_lenient_listener "garbage".toList).1 (by decide)⟩,
   ⟨rfl, (C4_lenient_listener discoveryBroadcast).2 rfl⟩⟩

/-- C5 counterexample: at raw bytes (hi, lo) = (8, 0) the zone decoder (no
mask) yields 154.8 °C while the AC decoder (high byte masked to 3 bits)
yields -50 °C, so the two status decoders do not compute the same function
of the two raw bytes. -/
theorem C5_unmasked_mismatch :
    zoneTempDecode 8 0 ≠ acTempDecode 8 0 ∧
    zoneTempDecode 8 0 = 1548 / 10 ∧
    acTempDecode 8 0 = -50 := by
  refine ⟨?_, ?_, ?_⟩ <;>
    · simp only [zoneTempDecode, acTempDecode,
        show (8 &&& 7 : Nat) = 0 from rfl, Nat.shiftLeft_eq]
      norm_num

/-- C5 amended: the two current-temperature decoders agree exactly on the
pairs whose high byte already lies within the AC decoder's 3-bit mask
(hi < 8); the AC decoder masks the high byte with 0b00000111 while the zone
decoder uses it unmasked, so they differ whenever hi ≥ 8. -/
theorem C5_masked_agree (hi lo : Nat) (h : hi < 8) :
    zoneTempDecode hi lo = acTempDecode hi lo := by
  have hm : hi &&& 7 = hi := by interval_cases hi <;> rfl
  unfold zoneTempDecode acTempDecode
  rw [hm]

theorem C5_masked_agree_witness :
    (3 : Nat) < 8 ∧ zoneTempDecode 3 200 = acTempDecode 3 200 :=
  ⟨by decide, C5_masked_agree 3 200 (by decide)⟩

/-- Sixteen bytes of AC-status repeat data: two 8-byte records per the
protocol and the message's own repeat-length fields. -/
def acStatusData16 : List Nat :=
  [1, 2, 3, 4, 5, 6, 7, 8, 9, 10, 11, 12, 13, 14, 15, 16]

/-- C2 (failing evaluation): on a two-record AC status message the current
decoder slices record 1 as `data.subarray(19, 20)` — empty after clamping —
instead of bytes 8..15, and even record 0 is taken as a 10-byte slice; the
previous revision's `data.slice(i*8, i*8+8)` extracts the 8-byte records the
claim (and the decoder's own comments) describe. -/
theorem C2_record_slice_wrong :
    acStatusRecordSlice acStatusData16 1 = [] ∧
    acStatusRecordSlicePrev acStatusData16 1 = [9, 10, 11, 12, 13, 14, 15, 16] ∧
    acStatusRecordSlice acStatusData16 1 ≠ acStatusRecordSlicePrev acStatusData16 1 ∧
    acStatusRecordSlice acStatusData16 0 = [1, 2, 3, 4, 5, 6, 7, 8, 9, 10] := by
  decide

/-- C9: composing the target-temperature encoding of
`acSetTargetTemperature` (raw = celsius*10 - 100, stored as byte 4 of the AC
control payload) with the status-decode formula (raw + 100)/10 returns the
original celsius value exactly — in particular to within 0.1 °C — for every
celsius value 10.0, 10.1, ..., 35.0 (written as (100 + n)/10 for n ≤ 250). -/
theorem C9_target_roundtrip (n : Nat) (h : n ≤ 250) :
    targetTempDecode
        ((encode_ac_control
          (acSetTargetTemperatureControl 0 ((100 + (n : ℚ)) / 10))).getD 3 0) =
      (100 + (n : ℚ)) / 10 := by
  have hval : (100 + (n : ℚ)) / 10 * 10 - 100 = (n : ℚ) := by ring
  have hb :
      (encode_ac_control
        (acSetTargetTemperatureControl 0 ((100 + (n : ℚ)) / 10))).getD 3 0 = n := by
    show ratToUint8 ((100 + (n : ℚ)) / 10 * 10 - 100) = n
    rw [hval]
    unfold ratToUint8
    simp only [Rat.num_natCast, Rat.den_natCast, Nat.cast_one, Int.ediv_one]
    omega
  rw [hb]
  unfold targetTempDecode
  ring

theorem C9_target_roundtrip_witness :
    (125 : Nat) ≤ 250 ∧
    targetTempDecode
        ((encode_ac_control
          (acSetTargetTemperatureControl 0 ((100 + ((125 : Nat) : ℚ)) / 10))).getD 3 0) =
      (100 + ((125 : Nat) : ℚ)) / 10 :=
  ⟨by decide, C9_target_roundtrip 125 (by decide)⟩

/-- C7: the derived current heater/cooler state of a zone is inactive when
the zone power is off; idle when power is on and the damper is at 0%; and,
with power on and the damper open: cooling for mode auto(0) with
target < current, heating for mode auto(0) with target ≥ current, heating
for modes heat(1) and auto-heat(8), cooling for modes cool(4), auto-cool(9),
dry(2) and fan(3), and inactive for every other mode value. -/
theorem C7_current_state_cases :
    (∀ (d m : Nat) (t c : ℚ),
      currentHeaterCoolerState 0 d m t c = .inactive) ∧
    (∀ (p m : Nat) (t c : ℚ), p ≠ 0 →
      currentHeaterCoolerState p 0 m t c = .idle) ∧
    (∀ (p d : Nat) (t c : ℚ), p ≠ 0 → d ≠ 0 → t < c →
      currentHeaterCoolerState p d 0 t c = .cooling) ∧
    (∀ (p d : Nat) (t c : ℚ), p ≠ 0 → d ≠ 0 → c ≤ t →
      currentHeaterCoolerState p d 0 t c = .heating) ∧
    (∀ (p d m : Nat) (t c : ℚ), p ≠ 0 → d ≠ 0 → (m = 1 ∨ m = 8) →
      currentHeaterCoolerState p d m t c = .heating) ∧
    (∀ (p d m : Nat) (t c : ℚ), p ≠ 0 → d ≠ 0 →
      (m = 4 ∨ m = 9 ∨ m = 2 ∨ m = 3) →
      currentHeaterCoolerState p d m t c = .cooling) ∧
    (∀ (p d m : Nat) (t c : ℚ), p ≠ 0 → d ≠ 0 →
      m ≠ 0 → m ≠ 1 → m ≠ 2 → m ≠ 3 → m ≠ 4 → m ≠ 8 → m ≠ 9 →
      currentHeaterCoolerState p d m t c = .inactive) := by
  refine ⟨?_, ?_, ?_, ?_, ?_, ?_, ?_⟩
  · intro d m t c; simp [currentHeaterCoolerState]
  · intro p m t c hp; simp [currentHeaterCoolerState, hp]
  · intro p d t c hp hd ht; simp [currentHeaterCoolerState, hp, hd, ht]
  · intro p d t c hp hd ht
    simp [currentHeaterCoolerState, hp, hd, not_lt.mpr ht]
  · rintro p d m t c hp hd (rfl | rfl) <;>
      simp [currentHeaterCoolerState, hp, hd]
  · rintro p d m t c hp hd (rfl | rfl | rfl | rfl) <;>
      simp [currentHeaterCoolerState, hp, hd]
  · intro p d m t c hp hd h0 h1 h2 h3 h4 h8 h9
    simp [currentHeaterCoolerState, hp, hd, h0, h1, h2, h3, h4, h8, h9]

theorem C7_current_state_cases_witness :
    currentHeaterCoolerState 0 50 4 20 25 = .inactive ∧
    currentHeaterCoolerState 1 0 4 20 25 = .idle ∧
    currentHeaterCoolerState 1 50 0 20 25 = .cooling ∧
    currentHeaterCoolerState 1 50 0 25 20 = .heating ∧
    currentHeaterCoolerState 1 50 8 20 25 = .heating ∧
    currentHeaterCoolerState 1 50 9 20 25 = .cooling ∧
    currentHeaterCoolerState 1 50 7 20 25 = .inactive :=
  ⟨C7_current_state_cases.1 50 4 20 25,
   C7_current_state_cases.2.1 1 4 20 25 (by decide),
   C7_current_state_cases.2.2.1 1 50 20 25 (by decide) (by decide) (by norm_num),
   C7_current_state_cases.2.2.2.1 1 50 25 20 (by decide) (by decide) (by norm_num),
   C7_current_state_cases.2.2.2.2.1 1 50 8 20 25 (by decide) (by decide) (Or.inr rfl),
   C7_current_state_cases.2.2.2.2.2.1 1 50 9 20 25 (by decide) (by decide)
     (Or.inr (Or.inl rfl)),
   C7_current_state_cases.2.2.2.2.2.2 1 50 7 20 25 (by decide) (by decide)
     (by decide) (by decide) (by decide) (by decide) (by decide) (by decide)
     (by decide)⟩

/-- C8 counterexample: starting from a fresh session, the single inbound
message trace consisting of one zone-status message makes the session write
the GET_ZONE_NAMES request even though no AC ability message was ever
decoded: the inbound dispatcher does not gate zone-status decoding on the
bootstrap order. -/
theorem C8_names_without_ability :
    sessionRun sessionInit [InboundMsg.zoneStat] =
      [SessionAction.decodedZoneStat, SessionAction.sentGetZoneNames] ∧
    noNamesBeforeAbility (sessionRun sessionInit [InboundMsg.zoneStat]) = false := by
  exact ⟨rfl, rfl⟩

theorem sessionRun_names_after_zoneStat (msgs : List InboundMsg) :
    ∀ s, noNamesBeforeZoneStat (sessionRun s msgs) = true := by
  induction msgs with
  | nil => intro s; rfl
  | cons m ms ih =>
    intro s
    cases m with
    | acAbility =>
      simp only [sessionRun, sessionStep, getAcStatusActions]
      simp only [List.cons_append, List.singleton_append, noNamesBeforeZoneStat]
      simpa using ih _
    | zoneStat =>
      by_cases hz : s.got_zone_status <;>
        simp [sessionRun, sessionStep, hz, noNamesBeforeZoneStat]
    | acStat =>
      simp only [sessionRun, sessionStep, List.cons_append, List.nil_append,
        noNamesBeforeZoneStat]
      simpa using ih _
    | otherMsg =>
      simp only [sessionRun, sessionStep, List.nil_append]
      exact ih _

/-- C8 amended: in every execution, a GET_ZONE_NAMES request is never
written to the socket before a zone status message has been decoded on that
session (the `got_zone_status` guard); an AC ability message need not have
been decoded first, since inbound zone-status messages are dispatched to the
decoder regardless of the bootstrap order. -/
theorem C8_names_after_zone_status (msgs : List InboundMsg) :
    noNamesBeforeZoneStat (sessionRun sessionInit msgs) = true :=
  sessionRun_names_after_zoneStat msgs sessionInit

theorem decodeZoneNamesLoop_length :
    ∀ (fuel : Nat) (data : List Nat) (counter : Nat),
      data.length - counter ≤ fuel →
      2 * (decodeZoneNamesLoop data counter).length ≤ data.length - counter + 1 := by
  intro fuel
  induction fuel with
  | zero =>
    intro data c h
    rw [decodeZoneNamesLoop, dif_neg (by omega)]
    simp
  | succ n ih =>
    intro data c h
    rw [decodeZoneNamesLoop]
    by_cases h1 : c < data.length
    · rw [dif_pos h1]
      by_cases h2 : c + 1 < data.length
      · rw [dif_pos h2]
        have hrec := ih data (c + 2 + data.getD (c + 1) 0) (by omega)
        simp only [List.length_cons]
        omega
      · rw [dif_neg h2]
        simp only [List.length_singleton]
        omega
    · rw [dif_neg h1]
      simp

/-- C10: `decode_zone_names` terminates on every input buffer — it is a
total function here, its recursion measured by the bytes left, each
iteration consuming the 2-byte record header plus the name — and
consequently it emits at most about one record per two input bytes. -/
theorem C10_zone_names_total (data : List Nat) :
    2 * (decode_zone_names data).length ≤ data.length + 1 := by
  unfold decode_zone_names
  by_cases h : 0 < data.length
  · rw [if_pos h]
    have := decodeZoneNamesLoop_length data.length data 0 (by omega)
    omega
  · rw [if_neg h]
    simp

end AT5
